import Mathlib

/-!
Verification of the context-builder and streaming-session subsystems of the
Local-LLMs backend (src/backend/context_builder.py, src/backend/handlers.py,
src/backend/token_estimator.py), as a shallow embedding in Lean 4.

Token counts are natural numbers (lengths of tiktoken encodings); budget
arithmetic is over the integers, as in Python. The tiktoken encoder itself is
abstracted as a function from text and model name to a token count; the
wrapper count_tokens reproduces the empty-text guard of
TokenEstimator.count_tokens. Floating-point fields that never influence
control flow (timestamps, temperature, thresholds) are modelled as rationals.
-/

/-- Models TokenEstimator (token_estimator.py). The field encode_len stands
for the length of the tiktoken encoding of a text under the encoding selected
for a model name; it is abstract here, instantiated concretely in examples. -/
structure TokenEstimator where
  encode_len : String → String → Nat

/-- Models TokenEstimator.count_tokens (token_estimator.py lines 105-123):
returns 0 for empty text, otherwise the length of the encoded text. -/
def count_tokens (te : TokenEstimator) (text : String) (model : String := "default") : Nat :=
  if text = "" then 0 else te.encode_len text model

/-- Models ContextBuilderConfig (context_builder.py lines 23-39). -/
structure ContextBuilderConfig where
  max_context_tokens : Int := 8192
  summarization_threshold : Rat := 4/5
  min_preserved_tokens : Int := 1024
  max_messages_before_summary : Nat := 20
  enable_summarization : Bool := true
  summarization_model : String := "default"
  response_reserve_tokens : Int := 1024

/-- Models the Message dataclass of context_builder.py (lines 42-68). Note
that the dataclass declares exactly the fields role, content, token_count,
created_at and attachments; in particular it has NO id field, which matters
for ContextBuilder._get_cache_key. Python dataclass equality compares all
fields, mirrored by the derived DecidableEq. -/
structure Message where
  role : String
  content : String
  token_count : Nat := 0
  created_at : Rat := 0
  attachments : List String := []
deriving DecidableEq, Repr

/-- Models ConversationContext (context_builder.py lines 71-90). -/
structure ConversationContext where
  messages : List Message
  total_tokens : Int
  max_tokens : Int
  was_summarized : Bool := false
  summary : Option String := none
deriving DecidableEq, Repr

/-- Models ConversationContext.usage_percentage (context_builder.py lines
85-90): guarded division, 0 when max_tokens is 0. -/
def usage_percentage (c : ConversationContext) : Rat :=
  if c.max_tokens = 0 then 0 else ((c.total_tokens : Rat) / (c.max_tokens : Rat)) * 100

/-- Models SummarizationResult (context_builder.py lines 93-108). -/
structure SummarizationResult where
  success : Bool
  summary : Option String := none
  original_tokens : Nat := 0
  summarized_tokens : Nat := 0
  error : Option String := none
deriving DecidableEq, Repr

/-- Models LLMConfig as used for summarization (context_builder.py lines
502-506): only max_tokens and temperature are set there. -/
structure LLMConfig where
  max_tokens : Int
  temperature : Rat

/-- Models the LLM provider capability consumed by ContextBuilder: generate
takes the prompt, the system prompt and a config and returns the response
content; a Python exception raised by generate is modelled as the error
case, which the try block of _summarize_messages catches. -/
structure LLMProvider where
  generate : String → String → LLMConfig → Except String String

/-- Models ContextBuilder instance state (context_builder.py lines 142-158):
configuration, token estimator, optional provider, and the summarization
cache (a Python dict, embedded as an insertion-ordered association list). -/
structure ContextBuilder where
  config : ContextBuilderConfig
  token_estimator : TokenEstimator
  llm_provider : Option LLMProvider := none
  summarization_cache : List (String × String) := []

/-- Python dict lookup d[k] as an option. -/
def dict_get {α : Type} (d : List (String × α)) (k : String) : Option α :=
  match d with
  | [] => none
  | (k2, v) :: rest => if k2 = k then some v else dict_get rest k

/-- Python dict assignment d[k] = v: overwrite in place or append. -/
def dict_insert {α : Type} (d : List (String × α)) (k : String) (v : α) : List (String × α) :=
  match d with
  | [] => [(k, v)]
  | (k2, v2) :: rest => if k2 = k then (k, v) :: rest else (k2, v2) :: dict_insert rest k v

/-- Python del d[k]: removes the (unique) binding of k if present. -/
def dict_erase {α : Type} (d : List (String × α)) (k : String) : List (String × α) :=
  match d with
  | [] => []
  | (k2, v2) :: rest => if k2 = k then rest else (k2, v2) :: dict_erase rest k

/-- Models ContextBuilder.count_message_tokens (context_builder.py lines
168-188): content tokens plus role tokens plus a fixed format overhead 3. -/
def count_message_tokens (b : ContextBuilder) (message : Message) (model : String := "default") : Nat :=
  let content_tokens := count_tokens b.token_estimator message.content model
  let format_tokens := 3
  let role_tokens := count_tokens b.token_estimator message.role model
  content_tokens + role_tokens + format_tokens

/-- Token cost of the system prompt as charged in count_context_tokens (lines
204-207), _apply_sliding_window (lines 289-291) and _build_with_summarization
(lines 341-343): the Python truthiness test `if system_prompt:` skips both
the count and the +3 overhead for None and for the empty string, and the
count always uses the default model (no model argument is passed there). -/
def system_prompt_tokens (b : ContextBuilder) (system_prompt : Option String) : Nat :=
  match system_prompt with
  | some s => if s = "" then 0 else count_tokens b.token_estimator s + 3
  | none => 0

/-- Models ContextBuilder.count_context_tokens (context_builder.py lines
190-213). Each message is costed with the DEFAULT model (count_message_tokens
is called there without a model argument). -/
def count_context_tokens (b : ContextBuilder) (messages : List Message) (system_prompt : Option String) : Nat :=
  system_prompt_tokens b system_prompt + (messages.map (fun m => count_message_tokens b m)).sum

/-- The budgeted take loop shared by _apply_sliding_window (lines 299-309,
on the reversed message list) and _trim_to_tokens (lines 439-446, on the list
in given order): accumulate messages while current + cost fits below the
available budget, stop at the first message that would overflow. -/
def take_within_budget (b : ContextBuilder) (model : String) (available : Int) (current : Nat) : List Message → List Message
  | [] => []
  | m :: rest =>
      let message_tokens := count_message_tokens b m model
      if ((current : Int) + message_tokens ≤ available) then
        m :: take_within_budget b model available (current + message_tokens) rest
      else
        []

/-- The Python slice result[-k:] for k applied at line 313: for k = 0 the
slice is the whole list (result[-0:] is result[0:]), otherwise the last k
elements. -/
def py_slice_last {α : Type} (k : Nat) (l : List α) : List α :=
  if k = 0 then l else l.drop (l.length - k)

/-- Models ContextBuilder._apply_sliding_window (context_builder.py lines
270-320): reserve the system prompt cost, walk messages newest to oldest
accumulating while they fit (building the kept set oldest first), then cap
the kept set to the last max_messages_before_summary entries. -/
def apply_sliding_window (b : ContextBuilder) (messages : List Message) (max_tokens : Int)
    (system_prompt : Option String) (model : String) : List Message :=
  let system_tokens := system_prompt_tokens b system_prompt
  let available_tokens : Int := max_tokens - system_tokens
  let result := (take_within_budget b model available_tokens 0 messages.reverse).reverse
  if result.length > b.config.max_messages_before_summary then
    py_slice_last b.config.max_messages_before_summary result
  else
    result

/-- Models ContextBuilder._trim_to_tokens (context_builder.py lines 420-448):
keep messages in scan order while they fit the limit, stop at the first
overflow. -/
def trim_to_tokens (b : ContextBuilder) (messages : List Message) (max_tokens : Int) (model : String) : List Message :=
  take_within_budget b model max_tokens 0 messages

/-- Models ContextBuilder._format_messages_for_summary (context_builder.py
lines 545-560): one bracketed line per message, content truncated to 500
characters, joined by newlines. -/
def format_messages_for_summary (messages : List Message) : String :=
  String.intercalate "\n" (messages.map (fun msg =>
    "[" ++ msg.role.toUpper ++ "]: " ++ msg.content.take 500))

/-- Models ContextBuilder._get_cache_key (context_builder.py lines 562-578).
The source builds the key text by joining, for each message, an f-string
that reads m.id — but the Message dataclass of this module declares no id
field, so the attribute access raises AttributeError on the first element of
any nonempty list. For the empty list no element is accessed and the key is
the md5 hex digest of the empty string. The raised exception is the error
case; it is NOT inside the try block of _summarize_messages. -/
def get_cache_key (messages : List Message) : Except String String :=
  match messages with
  | [] => Except.ok "d41d8cd98f00b204e9800998ecf8427e"
  | _ :: _ => Except.error "AttributeError: Message object has no attribute id"

/-- Models ContextBuilder._summarize_messages (context_builder.py lines
450-543). Note the order of operations in the source: the empty-list early
return comes first; the cache key is computed NEXT, before the provider-None
check and before the try block, so the AttributeError from _get_cache_key
propagates to the caller; a cache hit returns the cached summary; an absent
provider and an exception inside the try block both return a failure result
instead of raising; a successful generation strips the content, stores it in
the cache and returns success. The Python expression `system_prompt or
"You are a helpful assistant that summarizes conversations."` falls back to
the fixed string when the prompt is None or empty. -/
def summarize_messages (b : ContextBuilder) (messages : List Message) (system_prompt : Option String) :
    Except String (SummarizationResult × ContextBuilder) :=
  match messages with
  | [] =>
      Except.ok ({ success := true, summary := some "", original_tokens := 0, summarized_tokens := 0 }, b)
  | _ :: _ => do
      let cache_key ← get_cache_key messages
      match dict_get b.summarization_cache cache_key with
      | some cached =>
          Except.ok ({ success := true, summary := some cached,
                       original_tokens := count_context_tokens b messages none,
                       summarized_tokens := count_tokens b.token_estimator cached }, b)
      | none =>
          match b.llm_provider with
          | none =>
              Except.ok ({ success := false,
                           error := some "No LLM provider configured for summarization",
                           original_tokens := count_context_tokens b messages none,
                           summarized_tokens := 0 }, b)
          | some provider =>
              let conversation_text := format_messages_for_summary messages
              let summarization_prompt :=
                "Please summarize the following conversation history. Focus on:\n" ++
                "1. Key topics discussed\n2. Important decisions or conclusions\n" ++
                "3. Any constraints or preferences mentioned\n\n" ++
                "Keep the summary concise but comprehensive enough to maintain " ++
                "context for future conversation.\n\nConversation to summarize:\n" ++
                conversation_text
              let summary_config : LLMConfig :=
                { max_tokens := b.config.min_preserved_tokens, temperature := 3/10 }
              let effective_system :=
                match system_prompt with
                | some s =>
                    if s = "" then "You are a helpful assistant that summarizes conversations." else s
                | none => "You are a helpful assistant that summarizes conversations."
              match provider.generate summarization_prompt effective_system summary_config with
              | Except.error e =>
                  Except.ok ({ success := false, error := some e,
                               original_tokens := count_context_tokens b messages none,
                               summarized_tokens := 0 }, b)
              | Except.ok content =>
                  let summary := content.trim
                  let b2 := { b with summarization_cache := dict_insert b.summarization_cache cache_key summary }
                  Except.ok ({ success := true, summary := some summary,
                               original_tokens := count_context_tokens b messages none,
                               summarized_tokens := count_tokens b.token_estimator summary }, b2)

/-- Models ContextBuilder._build_with_summarization (context_builder.py lines
322-418): reserve the system prompt cost and min_preserved_tokens, re-select
the recent messages within the reduced budget, summarize the messages not
selected as recent (Python membership uses dataclass equality), and, when a
truthy summary was produced: if the summary plus recents overflow, trim the
recents; finally prepend the summary as a synthetic system message. The
variable summary stays None, and was_summarized False, unless the
summarization result was successful with a nonempty summary string. -/
def build_with_summarization (b : ContextBuilder) (messages : List Message) (system_prompt : Option String)
    (model : String) (max_tokens : Int) : Except String (ConversationContext × ContextBuilder) := do
  let system_tokens := system_prompt_tokens b system_prompt
  let summary_reserve := b.config.min_preserved_tokens
  let available_tokens : Int := max_tokens - system_tokens - summary_reserve
  let recent_messages0 := (take_within_budget b model available_tokens 0 messages.reverse).reverse
  let recent_tokens0 : Nat := (recent_messages0.map (fun m => count_message_tokens b m model)).sum
  let older_messages := messages.filter (fun m => !(recent_messages0.contains m))
  let step : Except String ((Option String × Bool × List Message) × ContextBuilder) :=
    if older_messages.isEmpty || b.llm_provider.isNone then
      Except.ok ((none, false, recent_messages0), b)
    else do
      let (summary_result, b2) ← summarize_messages b older_messages system_prompt
      match summary_result.summary with
      | some s =>
          if summary_result.success && !(s = "") then
            let summary_tokens := count_tokens b2.token_estimator s model + 3
            if ((system_tokens : Int) + summary_tokens + recent_tokens0 > max_tokens) then
              let target_recent : Int := max_tokens - system_tokens - summary_tokens
              Except.ok ((some s, true, trim_to_tokens b2 recent_messages0 target_recent model), b2)
            else
              Except.ok ((some s, true, recent_messages0), b2)
          else
            Except.ok ((none, false, recent_messages0), b2)
      | none => Except.ok ((none, false, recent_messages0), b2)
  let ((summary, was_summarized, recent_messages), b3) ← step
  let final_messages :=
    match summary with
    | some s =>
        ({ role := "system", content := "Previous conversation summary: " ++ s,
           token_count := count_tokens b3.token_estimator s model + 3 } : Message) :: recent_messages
    | none => recent_messages
  let total_tokens := count_context_tokens b3 final_messages system_prompt
  Except.ok ({ messages := final_messages, total_tokens := (total_tokens : Int),
               max_tokens := max_tokens, was_summarized := was_summarized,
               summary := summary }, b3)

/-- Models ContextBuilder.build_context (context_builder.py lines 215-268):
if the full context fits the budget max_context_tokens minus
response_reserve_tokens, return it unchanged; otherwise apply the sliding
window; if the windowed recount still exceeds the budget and summarization is
enabled, delegate to the summarization path; otherwise return the windowed
context. -/
def build_context (b : ContextBuilder) (messages : List Message) (system_prompt : Option String := none)
    (model : String := "default") : Except String (ConversationContext × ContextBuilder) :=
  let max_tokens : Int := b.config.max_context_tokens - b.config.response_reserve_tokens
  let total_tokens := count_context_tokens b messages system_prompt
  if ((total_tokens : Int) ≤ max_tokens) then
    Except.ok ({ messages := messages, total_tokens := (total_tokens : Int),
                 max_tokens := max_tokens, was_summarized := false }, b)
  else
    let windowed_messages := apply_sliding_window b messages max_tokens system_prompt model
    let total_tokens2 := count_context_tokens b windowed_messages system_prompt
    if ((total_tokens2 : Int) > max_tokens) && b.config.enable_summarization then
      build_with_summarization b messages system_prompt model max_tokens
    else
      Except.ok ({ messages := windowed_messages, total_tokens := (total_tokens2 : Int),
                   max_tokens := max_tokens, was_summarized := false }, b)

/-- One ChatML segment, as produced by the CHATML_ROLES templates of
ContextBuilder (context_builder.py lines 136-140). -/
def chatml_segment (role content : String) : String :=
  "<|im_start|>" ++ role ++ "\n" ++ content ++ "<|im_end|>\n"

/-- The list of segments assembled by ContextBuilder.format_for_llm
(context_builder.py lines 580-616), in order: the system prompt segment when
the prompt is truthy, a summary segment when context.summary is truthy, one
segment per message (roles outside the ChatML set fall back to assistant),
and the open assistant segment. format_for_llm joins these. -/
def format_parts (context : ConversationContext) (system_prompt : Option String) : List String :=
  (match system_prompt with
   | some s => if s = "" then [] else [chatml_segment "system" s]
   | none => []) ++
  (match context.summary with
   | some s => if s = "" then [] else
       [chatml_segment "system" ("Previous conversation summary: " ++ s)]
   | none => []) ++
  context.messages.map (fun m =>
    let role := if m.role = "system" || m.role = "user" || m.role = "assistant" then m.role else "assistant"
    chatml_segment role m.content) ++
  ["<|im_start|>assistant\n"]

/-- Models ContextBuilder.format_for_llm (context_builder.py lines 580-616). -/
def format_for_llm (context : ConversationContext) (system_prompt : Option String := none) : String :=
  String.join (format_parts context system_prompt)

/-- Models ContextBuilder.clear_cache (context_builder.py lines 618-621). -/
def clear_cache (b : ContextBuilder) : ContextBuilder :=
  { b with summarization_cache := [] }

/-- Stated from the claim wording for comparison with format_parts: an
order-preserving serialization consisting of the given system prompt segment
first (if any), then one role-delimited segment per message of
context.messages in order, ending with the open assistant segment — with no
separate summary segment. -/
def claimed_format_parts (context : ConversationContext) (system_prompt : Option String) : List String :=
  (match system_prompt with
   | some s => if s = "" then [] else [chatml_segment "system" s]
   | none => []) ++
  context.messages.map (fun m => chatml_segment m.role m.content) ++
  ["<|im_start|>assistant\n"]

/-- Events sent over the websocket by handlers.py (token, status, complete,
error). The complete event carries message_id, accumulated_content,
token_count and the cancelled flag; the normal-completion event of line 1381
carries no cancelled key, modelled as cancelled false. Timestamps never
influence control flow and are omitted. -/
inductive WsEvent where
  | token : String → Nat → Nat → WsEvent
  | status : String → Bool → Nat → String → WsEvent
  | complete : Nat → String → Nat → Bool → WsEvent
  | error : String → WsEvent
deriving DecidableEq, Repr

/-- Models the StreamingSession dataclass (handlers.py lines 1104-1126).
Message ids come from generate_id; they are modelled as naturals drawn from a
counter in the server state. The float timestamps are omitted. -/
structure StreamingSession where
  session_id : String
  message_id : Nat
  accumulated_content : String := ""
  token_count : Nat := 0
  is_streaming : Bool := false
  cancel_requested : Bool := false
deriving DecidableEq, Repr

/-- Shared server state: the module-level _streaming_sessions dict
(handlers.py line 1130) keyed by session id, a counter supplying fresh
message ids, and the list of stream coroutines spawned and not yet finished,
each holding its own session object (asyncio.create_task at line 1180). -/
structure ServerState where
  streaming_sessions : List (String × StreamingSession) := []
  next_id : Nat := 0
  tasks : List StreamingSession := []
deriving DecidableEq, Repr

/-- The session object built at the top of _stream_llm_response (handlers.py
lines 1256-1264). -/
def initial_streaming_session (session_id : String) (message_id : Nat) : StreamingSession :=
  { session_id := session_id, message_id := message_id, accumulated_content := "",
    token_count := 0, is_streaming := true, cancel_requested := false }

/-- Models the send_message branch of websocket_handler (handlers.py lines
1160-1182) together with the prologue of the spawned _stream_llm_response
task (lines 1256-1266), which runs up to its first await: a falsy session id
or content is rejected with an error event; otherwise a fresh session object
is created and stored in _streaming_sessions, overwriting any existing entry
for that id, and the streaming task is now live. No other event is emitted
and no busy check is performed. The database lookup inside the task is
external and assumed to succeed (persistence is out of scope, spec section
1). -/
def send_message (st : ServerState) (session_id content : String) : ServerState × List WsEvent :=
  if session_id = "" then
    (st, [WsEvent.error "missing_session_id"])
  else if content = "" then
    (st, [WsEvent.error "missing_content"])
  else
    let session := initial_streaming_session session_id st.next_id
    ({ streaming_sessions := dict_insert st.streaming_sessions session_id session,
       next_id := st.next_id + 1,
       tasks := st.tasks ++ [session] }, [])

/-- Models the cancel_stream branch of websocket_handler (handlers.py lines
1184-1200): when the id has a live entry, set cancel_requested on that very
session object (shared with the stream task) and synchronously send a
complete event with cancelled true carrying the current accumulated content;
otherwise send a no_active_stream error. -/
def cancel_stream (st : ServerState) (session_id : String) : ServerState × List WsEvent :=
  match dict_get st.streaming_sessions session_id with
  | some session =>
      let session2 := { session with cancel_requested := true }
      ({ st with streaming_sessions := dict_insert st.streaming_sessions session_id session2 },
       [WsEvent.complete session.message_id session.accumulated_content session.token_count true])
  | none =>
      (st, [WsEvent.error "no_active_stream"])

/-- Models the token loop of _stream_llm_response (handlers.py lines
1326-1353): for each upstream token, first check the cancellation flag and
break if set; otherwise emit the token event, append the text to the
accumulated content, bump the token count, and emit a status event on every
10th token. Returns the emitted events and the session state at loop exit. -/
def stream_loop (session : StreamingSession) : List String → List WsEvent × StreamingSession
  | [] => ([], session)
  | t :: ts =>
      if session.cancel_requested then
        ([], session)
      else
        let ev := WsEvent.token t session.message_id session.token_count
        let session2 := { session with
          accumulated_content := session.accumulated_content ++ t,
          token_count := session.token_count + 1 }
        let status_events :=
          if session2.token_count % 10 = 0 then
            [WsEvent.status session2.session_id true session2.token_count
              (session2.accumulated_content.take 200)]
          else []
        let rest := stream_loop session2 ts
        (ev :: (status_events ++ rest.1), rest.2)

/-- Models the epilogue of _stream_llm_response (handlers.py lines
1355-1401): if cancellation was requested, send a complete event with
cancelled true and the accumulated content; otherwise persist the assistant
message (external) and send the normal complete event; in both cases the
finally block removes the entry for this session id from
_streaming_sessions. -/
def finish_stream (st : ServerState) (session : StreamingSession) : ServerState × List WsEvent :=
  let events :=
    if session.cancel_requested then
      [WsEvent.complete session.message_id session.accumulated_content session.token_count true]
    else
      [WsEvent.complete session.message_id session.accumulated_content session.token_count false]
  ({ st with streaming_sessions := dict_erase st.streaming_sessions session.session_id }, events)

/-- The cancellation interleaving described by the spec: a stream is started,
the loop consumes the first n upstream tokens, the cancel_stream request
arrives (reading and flagging the shared session object), the loop resumes on
the remaining tokens and observes the flag, and the stream finishes. Returns
all emitted events in order and the final server state. -/
def cancel_after (session_id content : String) (tokens : List String) (n : Nat) :
    List WsEvent × ServerState :=
  let st0 : ServerState := {}
  let r1 := send_message st0 session_id content
  match dict_get r1.1.streaming_sessions session_id with
  | none => (r1.2, r1.1)
  | some session0 =>
      let phase1 := stream_loop session0 (tokens.take n)
      let st2 := { r1.1 with
        streaming_sessions := dict_insert r1.1.streaming_sessions session_id phase1.2 }
      let r2 := cancel_stream st2 session_id
      match dict_get r2.1.streaming_sessions session_id with
      | none => (r1.2 ++ phase1.1 ++ r2.2, r2.1)
      | some session2 =>
          let phase2 := stream_loop session2 (tokens.drop n)
          let r3 := finish_stream r2.1 phase2.2
          (r1.2 ++ phase1.1 ++ r2.2 ++ phase2.1 ++ r3.2, r3.1)

/-- Two send_message requests for the same conversation, the second arriving
while the first stream is live: returns the final state, the events emitted
for the first request and those for the second. -/
def double_start (session_id content1 content2 : String) :
    ServerState × List WsEvent × List WsEvent :=
  let st0 : ServerState := {}
  let r1 := send_message st0 session_id content1
  let r2 := send_message r1.1 session_id content2
  (r2.1, r1.2, r2.2)

/-- True exactly for a complete event carrying cancelled true. -/
def is_cancelled_complete : WsEvent → Bool
  | WsEvent.complete _ _ _ true => true
  | _ => false

/-- The text of a token event, if any. -/
def token_text : WsEvent → Option String
  | WsEvent.token t _ _ => some t
  | _ => none

/-- A concrete tokenizer instance for the closed examples: each character is
one token, for every model name. Like tiktoken encodings, it assigns
arbitrarily large counts to long texts, which is all the examples rely on. -/
def te_len : TokenEstimator :=
  { encode_len := fun text _ => text.length }

/-- A user message costing 10 tokens under te_len: 3 content characters, 4
role characters, 3 format tokens. -/
def msg10 : Message :=
  { role := "user", content := "abc" }

/-- The example budget of spec section 8: max_context_tokens 100,
response_reserve_tokens 20, min_preserved_tokens 20, so max_tokens is 80. -/
def cfg_example : ContextBuilderConfig :=
  { max_context_tokens := 100, response_reserve_tokens := 20,
    min_preserved_tokens := 20, max_messages_before_summary := 20,
    enable_summarization := true }

/-- A provider whose generate always succeeds with a short summary. -/
def gen_ok : LLMProvider :=
  { generate := fun _ _ _ => Except.ok "short summary" }

/-- Builder with the section 8 budget, summarization enabled and a working
provider. -/
def builder_sum : ContextBuilder :=
  { config := cfg_example, token_estimator := te_len, llm_provider := some gen_ok }

/-- Builder with the section 8 budget and summarization disabled. -/
def builder_nosum : ContextBuilder :=
  { config := { cfg_example with enable_summarization := false },
    token_estimator := te_len, llm_provider := none }

/-- A 100-character system prompt, costing 103 tokens under te_len — more
than the 80-token budget of cfg_example on its own. -/
def prompt100 : String :=
  String.mk (List.replicate 100 'a')

/-- The 20 turns of 10 tokens each from the example scenario of spec
section 8. -/
def msgs20 : List Message :=
  List.replicate 20 msg10

/-- A context of the shape assembled by the summarization path of
_build_with_summarization (context_builder.py lines 392-418): the messages
list begins with the synthetic summary turn and the summary field is set to
the same summary text. -/
def cx_summarized : ConversationContext :=
  { messages :=
      [{ role := "system", content := "Previous conversation summary: topics", token_count := 9 },
       msg10],
    total_tokens := 50, max_tokens := 80, was_summarized := true, summary := some "topics" }

/-- The budgeted take loop returns an initial segment of its input list. -/
lemma take_within_budget_append (b : ContextBuilder) (model : String) (avail : Int) :
    ∀ (l : List Message) (cur : Nat), ∃ t, take_within_budget b model avail cur l ++ t = l := by
  intro l
  induction l with
  | nil => intro cur; exact ⟨[], rfl⟩
  | cons m rest ih =>
      intro cur
      by_cases h : ((cur : Int) + count_message_tokens b m model ≤ avail)
      · obtain ⟨t, ht⟩ := ih (cur + count_message_tokens b m model)
        refine ⟨t, ?_⟩
        simp only [take_within_budget]
        rw [if_pos h]
        simpa using ht
      · refine ⟨m :: rest, ?_⟩
        simp only [take_within_budget]
        rw [if_neg h]
        rfl

/-- The Python tail slice keeps a suffix of its input. -/
lemma py_slice_last_suffix {α : Type} (k : Nat) (l : List α) :
    List.IsSuffix (py_slice_last k l) l := by
  unfold py_slice_last
  split
  · exact List.suffix_refl l
  · exact List.drop_suffix _ _

/-- C7: the sliding window never drops a newer turn while keeping an older
one — for every input list (oldest to newest) the kept set produced by
_apply_sliding_window is a contiguous suffix of the input, so turns are
never reordered or split and every dropped turn is older than every kept
turn. The window walks newest to oldest and stops at the first turn that
would overflow the available budget, which is exactly the take_within_budget
loop embedded from the source. -/
theorem C7_recency_suffix (b : ContextBuilder) (messages : List Message) (max_tokens : Int)
    (system_prompt : Option String) (model : String) :
    List.IsSuffix (apply_sliding_window b messages max_tokens system_prompt model) messages := by
  obtain ⟨t, ht⟩ := take_within_budget_append b model
    (max_tokens - (system_prompt_tokens b system_prompt : Int)) messages.reverse 0
  have hsuf : List.IsSuffix
      ((take_within_budget b model (max_tokens - (system_prompt_tokens b system_prompt : Int)) 0 messages.reverse).reverse)
      messages := by
    refine ⟨t.reverse, ?_⟩
    rw [← List.reverse_append, ht, List.reverse_reverse]
  unfold apply_sliding_window
  dsimp only
  split
  · exact (py_slice_last_suffix _ _).trans hsuf
  · exact hsuf

/-- C9: usage_percentage is a total function that never divides by zero — it
returns 0 when max_tokens is 0, and otherwise computes the ratio
total_tokens / max_tokens times 100 (stated multiplied out, which genuinely
uses the nonzero divisor). -/
theorem C9_usage_percentage_total (c : ConversationContext) :
    (c.max_tokens = 0 → usage_percentage c = 0) ∧
    (c.max_tokens ≠ 0 → usage_percentage c * (c.max_tokens : Rat) = (c.total_tokens : Rat) * 100) := by
  constructor
  · intro h; simp [usage_percentage, h]
  · intro h
    have hq : (c.max_tokens : Rat) ≠ 0 := Int.cast_ne_zero.mpr h
    unfold usage_percentage
    rw [if_neg h]
    field_simp

/-- C9 witness: usage_percentage of a concrete context with total 15 and
maximum 5 satisfies the ratio equation. -/
theorem C9_usage_percentage_witness :
    usage_percentage { messages := [], total_tokens := 15, max_tokens := 5 } * ((5 : Int) : Rat) =
      ((15 : Int) : Rat) * 100 :=
  (C9_usage_percentage_total { messages := [], total_tokens := 15, max_tokens := 5 }).2 (by decide)

/-- The budgeted take loop keeps the accumulated cost within the available
budget whenever the starting accumulator is within it. -/
lemma take_within_budget_sum (b : ContextBuilder) (model : String) (avail : Int) :
    ∀ (l : List Message) (cur : Nat), (cur : Int) ≤ avail →
      (cur : Int) + ((take_within_budget b model avail cur l).map
        (fun m => count_message_tokens b m model)).sum ≤ avail := by
  intro l
  induction l with
  | nil => intro cur h; simpa using h
  | cons m rest ih =>
      intro cur h
      by_cases hc : ((cur : Int) + count_message_tokens b m model ≤ avail)
      · have hrec := ih (cur + count_message_tokens b m model) (by push_cast at hc ⊢; linarith)
        simp only [take_within_budget]
        rw [if_pos hc]
        simp only [List.map_cons, List.sum_cons]
        push_cast at hrec ⊢
        linarith
      · simp only [take_within_budget]
        rw [if_neg hc]
        simpa using h

/-- Cost sums only shrink when passing to a suffix. -/
lemma sum_map_le_of_suffix (f : Message → Nat) {l1 l2 : List Message}
    (h : List.IsSuffix l1 l2) : (l1.map f).sum ≤ (l2.map f).sum := by
  obtain ⟨s, rfl⟩ := h
  simp only [List.map_append, List.sum_append]
  exact Nat.le_add_left _ _

/-- Whenever the system prompt cost fits the budget, the windowed context
(recounted under the default model, as build_context does) fits the budget. -/
lemma apply_sliding_window_fits (b : ContextBuilder) (messages : List Message) (max_tokens : Int)
    (system_prompt : Option String)
    (h : (system_prompt_tokens b system_prompt : Int) ≤ max_tokens) :
    (count_context_tokens b (apply_sliding_window b messages max_tokens system_prompt "default") system_prompt : Int) ≤ max_tokens := by
  set avail : Int := max_tokens - (system_prompt_tokens b system_prompt : Int) with havail
  set kept := take_within_budget b "default" avail 0 messages.reverse with hkept
  have hsum0 : (0 : Int) + ((kept.map (fun m => count_message_tokens b m "default")).sum : Nat) ≤ avail := by
    exact take_within_budget_sum b "default" avail messages.reverse 0 (by omega)
  have hsum : (((kept.map (fun m => count_message_tokens b m "default")).sum : Nat) : Int) ≤ avail := by
    simpa using hsum0
  have hsuffix : List.IsSuffix (apply_sliding_window b messages max_tokens system_prompt "default") kept.reverse := by
    unfold apply_sliding_window
    dsimp only
    rw [← havail, ← hkept]
    split
    · exact py_slice_last_suffix _ _
    · exact List.suffix_refl _
  have hle : ((apply_sliding_window b messages max_tokens system_prompt "default").map
      (fun m => count_message_tokens b m)).sum ≤
      ((kept.reverse.map (fun m => count_message_tokens b m)).sum) :=
    sum_map_le_of_suffix _ hsuffix
  have hrev : ((kept.reverse.map (fun m => count_message_tokens b m)).sum) =
      ((kept.map (fun m => count_message_tokens b m)).sum) := by
    rw [List.map_reverse, List.sum_reverse]
  unfold count_context_tokens
  rw [Nat.cast_add]
  have : (((apply_sliding_window b messages max_tokens system_prompt "default").map
      (fun m => count_message_tokens b m)).sum : Int) ≤ avail := by
    calc (((apply_sliding_window b messages max_tokens system_prompt "default").map
        (fun m => count_message_tokens b m)).sum : Int)
        ≤ ((kept.reverse.map (fun m => count_message_tokens b m)).sum : Int) := by exact_mod_cast hle
      _ = ((kept.map (fun m => count_message_tokens b m)).sum : Int) := by exact_mod_cast hrev
      _ ≤ avail := hsum
  omega

/-- C1 (amended): for every builder, turn list and system prompt satisfying
max_context_tokens > response_reserve_tokens + min_preserved_tokens, with at
least one turn individually within max_context_tokens minus
response_reserve_tokens, and — the amendment forced by the counterexample —
whose system prompt cost also fits that budget, build_context (called with
the default model, as its only caller does) succeeds and returns a context
with total_tokens at most max_context_tokens minus response_reserve_tokens. -/
theorem C1_budget_amended (b : ContextBuilder) (messages : List Message) (system_prompt : Option String)
    (h1 : b.config.response_reserve_tokens + b.config.min_preserved_tokens < b.config.max_context_tokens)
    (h2 : ∃ m ∈ messages, (count_message_tokens b m : Int) ≤
      b.config.max_context_tokens - b.config.response_reserve_tokens)
    (h3 : (system_prompt_tokens b system_prompt : Int) ≤
      b.config.max_context_tokens - b.config.response_reserve_tokens) :
    ∃ cx b2, build_context b messages system_prompt "default" = Except.ok (cx, b2) ∧
      cx.total_tokens ≤ b.config.max_context_tokens - b.config.response_reserve_tokens := by
  unfold build_context
  dsimp only
  by_cases hle : ((count_context_tokens b messages system_prompt : Int) ≤
      b.config.max_context_tokens - b.config.response_reserve_tokens)
  · rw [if_pos hle]
    exact ⟨_, _, rfl, hle⟩
  · rw [if_neg hle]
    have hw := apply_sliding_window_fits b messages
      (b.config.max_context_tokens - b.config.response_reserve_tokens) system_prompt h3
    have hcond : (decide ((count_context_tokens b (apply_sliding_window b messages
        (b.config.max_context_tokens - b.config.response_reserve_tokens) system_prompt "default")
        system_prompt : Int) > b.config.max_context_tokens - b.config.response_reserve_tokens) &&
        b.config.enable_summarization) = false := by
      simp [not_lt.mpr hw]
    rw [hcond]
    rw [if_neg (by simp : ¬ (false = true))]
    exact ⟨_, _, rfl, hw⟩

/-- C1 witness: the amended budget bound at the concrete section 8 instance
(20 turns of 10 tokens, budget 80, no system prompt). -/
theorem C1_budget_witness :
    ∃ cx b2, build_context builder_sum msgs20 none "default" = Except.ok (cx, b2) ∧
      cx.total_tokens ≤ builder_sum.config.max_context_tokens -
        builder_sum.config.response_reserve_tokens :=
  C1_budget_amended builder_sum msgs20 none (by decide) ⟨msg10, by decide, by decide⟩ (by decide)

/-- C1 counterexample: with the section 8 budget (100 over 20 reserve and 20
preserved, so the configuration hypothesis holds) and a single 10-token turn
(individually within the 80-token budget), a 100-character system prompt
costing 103 tokens makes build_context return a context with total_tokens
103, exceeding max_context_tokens minus response_reserve_tokens = 80 — the
claim as stated is false because it does not constrain the system prompt. -/
theorem C1_budget_counterexample :
    builder_nosum.config.response_reserve_tokens + builder_nosum.config.min_preserved_tokens <
      builder_nosum.config.max_context_tokens ∧
    (∃ m ∈ [msg10], (count_message_tokens builder_nosum m : Int) ≤
      builder_nosum.config.max_context_tokens - builder_nosum.config.response_reserve_tokens) ∧
    (build_context builder_nosum [msg10] (some prompt100) "default").map (fun p => p.1) =
      Except.ok { messages := [], total_tokens := 103, max_tokens := 80,
                  was_summarized := false, summary := none } ∧
    ¬ ((103 : Int) ≤ builder_nosum.config.max_context_tokens -
      builder_nosum.config.response_reserve_tokens) := by
  refine ⟨by decide, ⟨msg10, by decide, by decide⟩, by rfl, by decide⟩

/-- C3: build_context raises instead of degrading — at a concrete input
whose windowed context still exceeds the budget (oversized system prompt),
with summarization enabled and a provider set, the summarization path calls
_get_cache_key, whose access to the nonexistent Message.id attribute raises
AttributeError before the try block, and the exception propagates out of
build_context. -/
theorem C3_build_context_raises :
    build_context builder_sum [msg10] (some prompt100) "default" =
      Except.error "AttributeError: Message object has no attribute id" := by
  rfl

/-- C5: the summarization cache can never memoize anything — the first
summarize call over any nonempty message list raises AttributeError while
computing the fingerprint (Message has no id attribute), before the cache is
consulted or written, so a second identical call can never hit the cache. -/
theorem C5_cache_idempotence_bug :
    builder_sum.summarization_cache = [] ∧
    summarize_messages builder_sum [msg10] none =
      Except.error "AttributeError: Message object has no attribute id" :=
  ⟨rfl, rfl⟩

/-- C4 counterexample: in the section 8 scenario (20 turns of 10 tokens,
budget 80), with summarization enabled and a provider set, the sliding
window drops 12 older turns, the windowed context fits the budget, and
build_context returns it with was_summarized false and no summary — the
summarization path is NOT taken even though older turns were dropped. -/
theorem C4_summarization_trigger_counterexample :
    builder_sum.config.enable_summarization = true ∧
    builder_sum.llm_provider.isSome = true ∧
    (build_context builder_sum msgs20 none "default").map (fun p => p.1) =
      Except.ok { messages := msgs20.drop 12, total_tokens := 80, max_tokens := 80,
                  was_summarized := false, summary := none } ∧
    msgs20.length - (msgs20.drop 12).length = 12 := by
  refine ⟨rfl, rfl, by rfl, by decide⟩

/-- C4 (amended): build_context enters the summarization path only when the
recounted windowed context still exceeds max_tokens; whenever the windowed
context fits (as in the section 8 example, where turns were dropped), the
dropped turns are discarded without summarization and the windowed context is
returned with was_summarized false, no summary, and the builder unchanged. -/
theorem C4_summarization_trigger_amended (b : ContextBuilder) (messages : List Message)
    (system_prompt : Option String) (model : String)
    (h1 : ¬ ((count_context_tokens b messages system_prompt : Int) ≤
      b.config.max_context_tokens - b.config.response_reserve_tokens))
    (h2 : (count_context_tokens b (apply_sliding_window b messages
        (b.config.max_context_tokens - b.config.response_reserve_tokens) system_prompt model)
        system_prompt : Int) ≤
      b.config.max_context_tokens - b.config.response_reserve_tokens) :
    ∃ cx, build_context b messages system_prompt model = Except.ok (cx, b) ∧
      cx.messages = apply_sliding_window b messages
        (b.config.max_context_tokens - b.config.response_reserve_tokens) system_prompt model ∧
      cx.was_summarized = false ∧ cx.summary = none := by
  unfold build_context
  dsimp only
  rw [if_neg h1]
  have hcond : (decide ((count_context_tokens b (apply_sliding_window b messages
      (b.config.max_context_tokens - b.config.response_reserve_tokens) system_prompt model)
      system_prompt : Int) > b.config.max_context_tokens - b.config.response_reserve_tokens) &&
      b.config.enable_summarization) = false := by
    simp [not_lt.mpr h2]
  rw [hcond]
  rw [if_neg (by simp : ¬ (false = true))]
  exact ⟨_, rfl, rfl, rfl, rfl⟩

/-- C4 witness: the amended trigger condition at the concrete section 8
instance. -/
theorem C4_summarization_trigger_witness :
    ∃ cx, build_context builder_sum msgs20 none "default" = Except.ok (cx, builder_sum) ∧
      cx.messages = apply_sliding_window builder_sum msgs20
        (builder_sum.config.max_context_tokens - builder_sum.config.response_reserve_tokens)
        none "default" ∧
      cx.was_summarized = false ∧ cx.summary = none :=
  C4_summarization_trigger_amended builder_sum msgs20 none "default" (by decide) (by decide)

/-- C8 counterexample: for a context assembled by the summarization path
(summary turn prepended to messages AND summary field set), format_for_llm
renders the summary segment twice — once from the summary field branch and
once from the prepended synthetic turn — so the parts differ from the
claimed one-segment-per-item serialization and the summary appears in two
segments, not one. -/
theorem C8_format_counterexample :
    (format_parts cx_summarized none).count
      (chatml_segment "system" ("Previous conversation summary: topics")) = 2 ∧
    format_parts cx_summarized none ≠ claimed_format_parts cx_summarized none := by
  refine ⟨by decide, by decide⟩

/-- C8 (amended): format_for_llm is the claimed order-preserving
serialization — system prompt segment first (if truthy), then one segment
per message of context.messages in order, ending with the open assistant
segment — provided context.summary is unset and all roles are ChatML roles;
when summary is set an additional summary segment precedes the messages, so
a summarization-assembled context carries the summary in two segments. -/
theorem C8_format_amended (context : ConversationContext) (system_prompt : Option String)
    (h1 : context.summary = none)
    (h2 : ∀ m ∈ context.messages, m.role = "system" ∨ m.role = "user" ∨ m.role = "assistant") :
    format_parts context system_prompt = claimed_format_parts context system_prompt := by
  unfold format_parts claimed_format_parts
  rw [h1]
  have hmap : context.messages.map (fun m =>
      let role := if m.role = "system" || m.role = "user" || m.role = "assistant" then m.role else "assistant"
      chatml_segment role m.content) =
      context.messages.map (fun m => chatml_segment m.role m.content) := by
    apply List.map_congr_left
    intro m hm
    rcases h2 m hm with h | h | h <;> simp [h]
  rw [hmap]
  simp

/-- C8 witness: the amended serialization at a concrete summary-free
context. -/
theorem C8_format_witness :
    format_parts { messages := [msg10], total_tokens := 13, max_tokens := 80 } none =
      claimed_format_parts { messages := [msg10], total_tokens := 13, max_tokens := 80 } none :=
  C8_format_amended _ none rfl (by decide)

/-- The token loop returns immediately when the cancellation flag is already
set, emitting nothing. -/
lemma stream_loop_cancelled (session : StreamingSession) (ts : List String)
    (h : session.cancel_requested = true) : stream_loop session ts = ([], session) := by
  cases ts with
  | nil => rfl
  | cons t ts2 => simp [stream_loop, h]

/-- A run of the token loop with the flag unset consumes all tokens: the
final session accumulates their concatenation and counts them, the token
events carry exactly the input texts in order, and no complete event is
emitted by the loop itself. -/
lemma stream_loop_run (ts : List String) : ∀ (session : StreamingSession),
    session.cancel_requested = false →
    (stream_loop session ts).2 = { session with
        accumulated_content := ts.foldl (fun a t => a ++ t) session.accumulated_content,
        token_count := session.token_count + ts.length } ∧
    (stream_loop session ts).1.filterMap token_text = ts ∧
    (stream_loop session ts).1.countP is_cancelled_complete = 0 := by
  induction ts with
  | nil =>
      intro s h
      refine ⟨?_, rfl, rfl⟩
      simp [stream_loop]
  | cons t ts2 ih =>
      rintro ⟨sid, mid, acc, cnt, ist, flag⟩ h
      simp only at h
      subst h
      obtain ⟨ih1, ih2, ih3⟩ :=
        ih ⟨sid, mid, acc ++ t, cnt + 1, ist, false⟩ rfl
      refine ⟨?_, ?_, ?_⟩
      · simp only [stream_loop, Bool.false_eq_true, if_false]
        rw [ih1]
        simp only [StreamingSession.mk.injEq, List.foldl_cons, List.length_cons,
          and_true, true_and, eq_self_iff_true]
        omega
      · simp only [stream_loop, Bool.false_eq_true, if_false]
        by_cases hmod : (cnt + 1) % 10 = 0
        · simp [hmod, List.filterMap_cons, List.filterMap_append, token_text, ih2]
        · simp [hmod, List.filterMap_cons, List.filterMap_append, token_text, ih2]
      · simp only [stream_loop, Bool.false_eq_true, if_false]
        by_cases hmod : (cnt + 1) % 10 = 0
        · simp [hmod, List.countP_cons, List.countP_append, is_cancelled_complete, ih3]
        · simp [hmod, List.countP_cons, List.countP_append, is_cancelled_complete, ih3]

/-- C6: when cancellation is requested after n token events have been
emitted, the token events carry exactly the first n upstream texts in
order, the stream terminates with a complete event carrying cancelled true
whose accumulated content is the concatenation of those n texts (with token
count n), and the live-session table entry for the conversation is gone
immediately after termination. -/
theorem C6_cancellation_safety (session_id content : String) (tokens : List String) (n : Nat)
    (h1 : ¬ session_id = "") (h2 : ¬ content = "") (h3 : n ≤ tokens.length) :
    (cancel_after session_id content tokens n).1.filterMap token_text = tokens.take n ∧
    (cancel_after session_id content tokens n).1.getLast? =
      some (WsEvent.complete 0 ((tokens.take n).foldl (fun a t => a ++ t) "") n true) ∧
    dict_get (cancel_after session_id content tokens n).2.streaming_sessions session_id = none := by
  obtain ⟨hrun2, hrun1, hrun0⟩ :=
    stream_loop_run (tokens.take n) (initial_streaming_session session_id 0) rfl
  have hlen : (tokens.take n).length = n := by rw [List.length_take]; omega
  simp only [cancel_after, send_message, cancel_stream, finish_stream, dict_insert,
    dict_get, dict_erase, initial_streaming_session, if_neg h1, if_neg h2, ite_true,
    eq_self_iff_true, stream_loop_cancelled]
  simp only [initial_streaming_session] at hrun2 hrun1
  rw [hrun2]
  refine ⟨?_, ?_, ?_⟩
  · simp only [List.filterMap_append, List.filterMap_cons, List.filterMap_nil, token_text,
      List.append_nil, List.nil_append]
    simpa using hrun1
  · rw [List.getLast?_concat]
    simp [hlen]
  · simp [dict_get]

/-- C6 witness: cancelling after 2 of 3 tokens at a concrete conversation
yields the cancelled complete event with content xy and count 2, and frees
the live-session slot. -/
theorem C6_cancellation_safety_witness :
    (cancel_after "conv" "hi" ["x", "y", "z"] 2).1.filterMap token_text = ["x", "y"] ∧
    (cancel_after "conv" "hi" ["x", "y", "z"] 2).1.getLast? =
      some (WsEvent.complete 0 "xy" 2 true) ∧
    dict_get (cancel_after "conv" "hi" ["x", "y", "z"] 2).2.streaming_sessions "conv" = none := by
  have h := C6_cancellation_safety "conv" "hi" ["x", "y", "z"] 2 (by decide) (by decide) (by decide)
  exact ⟨h.1.trans (by decide), h.2.1.trans (by decide), h.2.2⟩

/-- C10: cancelling a live stream produces exactly two complete events with
cancelled true — one sent synchronously by the cancel_stream handler when it
sets the flag on the table entry, and a second sent by the token loop when
it observes the flag and terminates. -/
theorem C10_double_complete (session_id content : String) (tokens : List String) (n : Nat)
    (h1 : ¬ session_id = "") (h2 : ¬ content = "") :
    (cancel_after session_id content tokens n).1.countP is_cancelled_complete = 2 := by
  obtain ⟨hrun2, hrun1, hrun0⟩ :=
    stream_loop_run (tokens.take n) (initial_streaming_session session_id 0) rfl
  simp only [cancel_after, send_message, cancel_stream, finish_stream, dict_insert,
    dict_get, dict_erase, initial_streaming_session, if_neg h1, if_neg h2, ite_true,
    eq_self_iff_true, stream_loop_cancelled]
  simp only [initial_streaming_session] at hrun0
  simp only [List.countP_append, List.countP_cons, List.countP_nil, hrun0,
    is_cancelled_complete]
  rfl

/-- C10 witness: the double complete event count at a concrete cancelled
stream. -/
theorem C10_double_complete_witness :
    (cancel_after "conv" "hi" ["x", "y", "z"] 2).1.countP is_cancelled_complete = 2 :=
  C10_double_complete "conv" "hi" ["x", "y", "z"] 2 (by decide) (by decide)

/-- C2 (amended): a second send_message for a conversation whose stream is
live is NOT rejected — it emits no event at all, spawns a second live
streaming task, and its fresh session object replaces the first one in the
live-session table (the table keeps at most one entry per conversation id,
but two streaming tasks are then live); the first session object itself is
unaltered, it is merely no longer the table entry. -/
theorem C2_single_flight_amended (session_id content1 content2 : String)
    (h1 : ¬ session_id = "") (h2 : ¬ content1 = "") (h3 : ¬ content2 = "") :
    (double_start session_id content1 content2).2.2 = [] ∧
    (double_start session_id content1 content2).1.tasks =
      [initial_streaming_session session_id 0, initial_streaming_session session_id 1] ∧
    dict_get (double_start session_id content1 content2).1.streaming_sessions session_id =
      some (initial_streaming_session session_id 1) := by
  simp [double_start, send_message, dict_insert, dict_get, if_neg h1, if_neg h2, if_neg h3,
    initial_streaming_session]

/-- C2 witness: the amended double-start behavior at a concrete
conversation. -/
theorem C2_single_flight_witness :
    (double_start "conv" "hi" "again").2.2 = [] ∧
    (double_start "conv" "hi" "again").1.tasks =
      [initial_streaming_session "conv" 0, initial_streaming_session "conv" 1] ∧
    dict_get (double_start "conv" "hi" "again").1.streaming_sessions "conv" =
      some (initial_streaming_session "conv" 1) :=
  C2_single_flight_amended "conv" "hi" "again" (by decide) (by decide) (by decide)

/-- C2 counterexample: a second start for a conversation already streaming
is not rejected with a busy condition (the handler emits no event), two live
streaming sessions exist for the conversation, and the live-table entry no
longer holds the first session — refuting the busy rejection, the
unaltered-table expectation and the at-most-one-live-session invariant. -/
theorem C2_single_flight_counterexample :
    (double_start "conv" "hi" "again").2.2 = [] ∧
    (double_start "conv" "hi" "again").1.tasks.countP
      (fun s => s.session_id == "conv" && s.is_streaming) = 2 ∧
    dict_get (double_start "conv" "hi" "again").1.streaming_sessions "conv" ≠
      some (initial_streaming_session "conv" 0) := by
  refine ⟨by decide, by decide, by decide⟩
